import Mathlib

/-
Verification of symforce's fmt 11.x compatibility header
(symforce/opt/fmt_compat.h).

The header consists of two compile-time rules:

 1. a concept EigenDerived, true of any type T for which the expression
    t.derived() is well-formed on a const reference t, together with a
    partial specialization of fmt::range_format_kind<T, char> for
    EigenDerived T that reports fmt::range_format::disabled;

 2. a partial specialization of fmt::formatter<T, char>, constrained by
    std::is_class_v<T>, by the negation of
    std::is_convertible_v<const T&, fmt::string_view>, and by
    requires(std::ostream& os, const T& t) { os << t; },
    which inherits from fmt::ostream_formatter.

A C++ type is embedded as the record of structural facts that these
constraints can observe.  The host formatting library (fmt) is not part of
the repository; its extension points are modelled from the spec where
needed and are marked as such.
-/

namespace FmtCompat

/-- The classification values of fmt's range-classification trait
fmt::range_format. -/
inductive RangeFormat
  | disabled
  | map
  | set
  | sequence
  | string
  | debug_string
  deriving DecidableEq, Repr

/-- The character type parameter of fmt's traits: char (narrow) or a wide
character type. -/
inductive CharT
  | narrow
  | wide
  deriving DecidableEq, Repr

/-- A C++ type, embedded as the structural facts about it that the
compile-time constraints of fmt_compat.h (and the host library's own
formatters) can observe. -/
structure CppType where
  /-- std::is_class_v<T> -/
  isClass : Bool
  /-- T is a primitive arithmetic type (int, double, ...) -/
  isArithmetic : Bool
  /-- std::is_convertible_v<const T&, fmt::string_view> -/
  convStringView : Bool
  /-- the expression os << t is well-formed for const T& t -/
  constStreamInsert : Bool
  /-- the expression os << t is well-formed for mutable T& t -/
  mutStreamInsert : Bool
  /-- the expression t.derived() is well-formed for const T& t -/
  constDerived : Bool
  /-- the expression t.derived() is well-formed for mutable T& t -/
  mutDerived : Bool
  /-- T exposes begin() and end() (an iterable range) -/
  hasBeginEnd : Bool
  /-- T nominally inherits from the linear-algebra base class
  (Eigen::EigenBase); irrelevant to the structural probes -/
  inheritsEigenBase : Bool
  deriving DecidableEq, Repr

/-- The concept from fmt_compat.h:
`concept EigenDerived = requires(const T& t) { t.derived(); };` -/
def EigenDerived (T : CppType) : Bool :=
  T.constDerived

/-- The constraint of the universal formatter specialization in
fmt_compat.h:
`std::is_class_v<T> && !std::is_convertible_v<const T&, fmt::string_view>
 && requires(std::ostream& os, const T& t) { os << t; }`. -/
def universalFormatterMatches (T : CppType) : Bool :=
  T.isClass && !T.convStringView && T.constStreamInsert

/-- Modelled from the spec: the host library's own (default)
range-classification trait, before this header is taken into account.  A
type exposing begin()/end() is classified as a formattable sequence;
anything else is disabled. -/
def hostRangeFormatKind (T : CppType) : RangeFormat :=
  if T.hasBeginEnd then RangeFormat.sequence else RangeFormat.disabled

/-- fmt::range_format_kind<T, CharT> after fmt_compat.h is included.  The
header specializes the trait only for CharT = char (narrow), and only for
EigenDerived types, where it reports disabled; everywhere else the host
library's default classification stands. -/
def rangeFormatKind (T : CppType) : CharT → RangeFormat
  | CharT.narrow =>
      if EigenDerived T then RangeFormat.disabled else hostRangeFormatKind T
  | CharT.wide => hostRangeFormatKind T

/-- A runtime value of some C++ type, carrying the texts that the various
rendering routes would produce for it.  streamText is what its
operator<< writes; the other fields are the host library's own renderings
(native formatting of arithmetic values, string formatting, bracketed
range formatting). -/
structure CppValue where
  ty : CppType
  streamText : String
  nativeText : String
  stringText : String
  rangeText : String
  deriving DecidableEq, Repr

/-- An output stream: a text buffer; operator<< appends to it. -/
structure OStream where
  buf : String
  deriving DecidableEq, Repr

/-- Stream insertion: operator<<(os, v) appends the value's textual
representation to the stream's buffer. -/
def OStream.insertVal (os : OStream) (v : CppValue) : OStream :=
  ⟨os.buf ++ v.streamText⟩

/-- Writing a value directly to a fresh output stream and capturing the
resulting text (the reference behaviour the spec compares against). -/
def captureStream (v : CppValue) : String :=
  (OStream.insertVal ⟨""⟩ v).buf

/-- Modelled from the spec: fmt::ostream_formatter, the ready-made
stream-forwarding formatter supplied by the host library.  It writes the
value into a fresh buffer-backed output stream via operator<< and yields
the buffer's contents as the formatted output. -/
def ostreamFormatterFormat (v : CppValue) : String :=
  (OStream.insertVal ⟨""⟩ v).buf

/-- Formatting a value through the universal stream-based formatter of
fmt_compat.h: defined (the specialization exists) exactly when its
three-part constraint holds, in which case it delegates to
fmt::ostream_formatter. -/
def universalFormat (v : CppValue) : Option String :=
  if universalFormatterMatches v.ty then some (ostreamFormatterFormat v)
  else none

/-- The formatter implementations that can be selected for a type. -/
inductive FormatterChoice
  | native
  | stringFmt
  | rangeFmt
  | ostreamCompat
  deriving DecidableEq, Repr

/-- Outcome of the host library's formatter resolution for a type. -/
inductive Resolution
  | chosen (f : FormatterChoice)
  | ambiguous
  | noneFound
  deriving DecidableEq, Repr

/-- Modelled from the spec: the formatter specializations applicable to a
type, in the host library's implicit registry, after fmt_compat.h is
included.  The host natively handles arithmetic types, string-like class
types (exclusively: string-likes are never range-formatted), and iterable
ranges whose range classification is not disabled; fmt_compat.h
contributes the universal ostream formatter under its own constraint. -/
def applicableFormatters (T : CppType) : List FormatterChoice :=
  (if T.isArithmetic then [FormatterChoice.native] else []) ++
  (if T.isClass && T.convStringView then [FormatterChoice.stringFmt] else []) ++
  (if T.isClass && !T.convStringView && T.hasBeginEnd &&
      rangeFormatKind T CharT.narrow != RangeFormat.disabled
   then [FormatterChoice.rangeFmt] else []) ++
  (if universalFormatterMatches T then [FormatterChoice.ostreamCompat] else [])

/-- Modelled from the spec: the host library selects among all registered
specializations; exactly one applicable specialization is selected, no
applicable specialization is a compile-time failure at the call site, and
several equally applicable specializations are an ambiguity. -/
def selectFormatter (T : CppType) : Resolution :=
  match applicableFormatters T with
  | [] => Resolution.noneFound
  | [f] => Resolution.chosen f
  | _ => Resolution.ambiguous

/-- Formatting a value through the host library's call site: resolve the
formatter for its type and run it. -/
def formatValue (v : CppValue) : Option String :=
  match selectFormatter v.ty with
  | Resolution.chosen FormatterChoice.native => some v.nativeText
  | Resolution.chosen FormatterChoice.stringFmt => some v.stringText
  | Resolution.chosen FormatterChoice.rangeFmt => some v.rangeText
  | Resolution.chosen FormatterChoice.ostreamCompat =>
      some (ostreamFormatterFormat v)
  | _ => none

/-- The universal formatter object itself.  The C++ struct
`fmt::formatter<T, char> : fmt::ostream_formatter` declares no data
members, so its state space is a single point. -/
inductive UniversalFormatter
  | mk
  deriving DecidableEq, Repr

/-- One formatting call through a formatter object: returns the (possibly
updated) formatter object and the produced text. -/
def formatCall (f : UniversalFormatter) (v : CppValue) :
    UniversalFormatter × String :=
  (f, ostreamFormatterFormat v)

/-- A sequence of formatting calls through one formatter object, threading
the object's state from call to call. -/
def runFormats : UniversalFormatter → List CppValue → List String
  | _, [] => []
  | f, v :: vs =>
      let r := formatCall f v
      r.2 :: runFormats r.1 vs

/-- The type `Point` of the spec's concrete scenario: a class with a
stream-insertion operator, not string-view convertible, no derived(), no
begin()/end(). -/
def pointTy : CppType :=
  ⟨true, false, false, true, true, false, false, false, false⟩

/-- The value Point with x = 3, y = 4, whose operator<< writes "(3, 4)". -/
def pointVal : CppValue :=
  ⟨pointTy, "(3, 4)", "", "", ""⟩

/-- The stand-in matrix-like type: a class exposing derived() (const),
begin()/end(), and operator<<, not string-view convertible. -/
def matTy : CppType :=
  ⟨true, false, false, true, true, true, true, true, true⟩

/-- The multi-line grid text that operator<< writes for the 2x2 identity. -/
def gridText : String := "1 0\n0 1"

/-- The bracketed sequence text that fmt's range formatter would produce
for the 2x2 identity. -/
def seqText : String := "[[1, 0], [0, 1]]"

/-- The 2x2 identity value of the stand-in matrix-like type. -/
def idMat : CppValue :=
  ⟨matTy, gridText, "", "", seqText⟩

/-- A string-like type (std::string): class, convertible to
fmt::string_view, streamable, iterable. -/
def strTy : CppType :=
  ⟨true, false, true, true, true, false, false, true, false⟩

/-- A primitive numeric type (int): arithmetic, not a class, streamable. -/
def intTy : CppType :=
  ⟨false, true, false, true, true, false, false, false, false⟩

/-- A duck-typed class unrelated to linear algebra: exposes derived() on
const references but inherits from no linear-algebra base, has no
begin()/end() and no operator<<. -/
def duckTy : CppType :=
  ⟨true, false, false, false, false, true, true, false, false⟩

/-- A class offering derived() and operator<< only on mutable references:
both expressions are ill-formed on const references. -/
def mutOnlyTy : CppType :=
  ⟨true, false, false, false, true, false, true, false, false⟩

/-- C1: for every class type T with a stream-insertion operator that is not
convertible to a textual string view, formatting a value of T through the
universal stream-based formatter produces exactly the same text as writing
that value directly to an output stream and capturing the result. -/
theorem fmtcompat_C1 (v : CppValue) (h1 : v.ty.isClass = true)
    (h2 : v.ty.convStringView = false) (h3 : v.ty.constStreamInsert = true) :
    universalFormat v = some (captureStream v) := by
  simp [universalFormat, universalFormatterMatches, h1, h2, h3,
    ostreamFormatterFormat, captureStream]

/-- C1 witness: the Point scenario, formatted through the universal
formatter, yields exactly the captured stream text "(3, 4)". -/
theorem fmtcompat_C1_witness :
    pointVal.ty.isClass = true ∧ pointVal.ty.convStringView = false ∧
    pointVal.ty.constStreamInsert = true ∧
    universalFormat pointVal = some (captureStream pointVal) ∧
    captureStream pointVal = "(3, 4)" :=
  ⟨rfl, rfl, rfl, fmtcompat_C1 pointVal rfl rfl rfl, rfl⟩

/-- C2: the universal stream-based formatter rule matches a type T if and
only if T is a class type, T is not convertible to a textual string-view
type, and a stream-insertion expression with a const T is well-formed; a
type failing any one of the three constraints is not matched. -/
theorem fmtcompat_C2 (T : CppType) :
    universalFormatterMatches T = true ↔
      T.isClass = true ∧ T.convStringView = false ∧
      T.constStreamInsert = true := by
  simp [universalFormatterMatches, Bool.and_eq_true, Bool.not_eq_true',
    and_assoc]

/-- C3: for every type T that structurally exposes a derived-type accessor
callable on a const reference, the range-classification trait for T in the
narrow-character context reports disabled. -/
theorem fmtcompat_C3 (T : CppType) (h : T.constDerived = true) :
    rangeFormatKind T CharT.narrow = RangeFormat.disabled := by
  simp [rangeFormatKind, EigenDerived, h]

/-- C3 witness: the stand-in matrix-like type has its range classification
disabled. -/
theorem fmtcompat_C3_witness :
    matTy.constDerived = true ∧
    rangeFormatKind matTy CharT.narrow = RangeFormat.disabled :=
  ⟨rfl, fmtcompat_C3 matTy rfl⟩

/-- C4: for every plain string-like type (a class type convertible to a
textual string view), the universal formatter rule does not apply, and the
pre-existing string formatter remains the one selected, with no ambiguity.
Class types are never arithmetic, hence the third hypothesis. -/
theorem fmtcompat_C4 (T : CppType) (h1 : T.isClass = true)
    (h2 : T.convStringView = true) (h3 : T.isArithmetic = false) :
    universalFormatterMatches T = false ∧
    selectFormatter T = Resolution.chosen FormatterChoice.stringFmt := by
  constructor
  · simp [universalFormatterMatches, h2]
  · simp [selectFormatter, applicableFormatters, universalFormatterMatches,
      h1, h2, h3]

/-- C4 witness: std::string is still formatted by the string formatter and
is not matched by the universal rule. -/
theorem fmtcompat_C4_witness :
    strTy.isClass = true ∧ strTy.convStringView = true ∧
    strTy.isArithmetic = false ∧
    universalFormatterMatches strTy = false ∧
    selectFormatter strTy = Resolution.chosen FormatterChoice.stringFmt :=
  ⟨rfl, rfl, rfl, (fmtcompat_C4 strTy rfl rfl rfl).1,
    (fmtcompat_C4 strTy rfl rfl rfl).2⟩

/-- C5: for every primitive numeric type (a non-class arithmetic type), the
universal formatter rule does not apply, and the host library's native
formatting is still the one selected. -/
theorem fmtcompat_C5 (T : CppType) (h1 : T.isArithmetic = true)
    (h2 : T.isClass = false) :
    universalFormatterMatches T = false ∧
    selectFormatter T = Resolution.chosen FormatterChoice.native := by
  constructor
  · simp [universalFormatterMatches, h2]
  · simp [selectFormatter, applicableFormatters, universalFormatterMatches,
      h1, h2]

/-- C5 witness: int keeps native formatting and is not matched by the
universal rule. -/
theorem fmtcompat_C5_witness :
    intTy.isArithmetic = true ∧ intTy.isClass = false ∧
    universalFormatterMatches intTy = false ∧
    selectFormatter intTy = Resolution.chosen FormatterChoice.native :=
  ⟨rfl, rfl, (fmtcompat_C5 intTy rfl rfl).1, (fmtcompat_C5 intTy rfl rfl).2⟩

/-- C6: the matrix-like classification is purely structural: any type whose
derived() accessor is callable on a const reference is matched and has its
narrow-character range classification disabled, whatever the value of its
nominal-inheritance flag (and of every other attribute). -/
theorem fmtcompat_C6 (T : CppType) (h : T.constDerived = true) (b : Bool) :
    EigenDerived { T with inheritsEigenBase := b } = true ∧
    rangeFormatKind { T with inheritsEigenBase := b } CharT.narrow =
      RangeFormat.disabled := by
  refine ⟨h, ?_⟩
  simp [rangeFormatKind, EigenDerived, h]

/-- C6 witness: a duck-typed class unrelated to linear algebra, with no
linear-algebra base class, is matched and disabled all the same. -/
theorem fmtcompat_C6_witness :
    duckTy.constDerived = true ∧ duckTy.inheritsEigenBase = false ∧
    EigenDerived duckTy = true ∧
    rangeFormatKind duckTy CharT.narrow = RangeFormat.disabled :=
  ⟨rfl, rfl, (fmtcompat_C6 duckTy rfl false).1, (fmtcompat_C6 duckTy rfl false).2⟩

/-- C7: the 2x2 identity of the stand-in matrix-like type formats, through
the host call site, to the multi-line grid text its operator<< produces,
which is not the bracketed sequence representation. -/
theorem fmtcompat_C7 :
    formatValue idMat = some gridText ∧
    formatValue idMat ≠ some seqText ∧ gridText ≠ seqText := by
  refine ⟨rfl, ?_, ?_⟩ <;> decide

/-- A formatting sequence produces exactly the per-value texts, whatever
formatter object it is run through. -/
theorem runFormats_eq_map (f : UniversalFormatter) (vs : List CppValue) :
    runFormats f vs = vs.map ostreamFormatterFormat := by
  induction vs generalizing f with
  | nil => rfl
  | cons v vs ih => simp [runFormats, formatCall, ih]

/-- C8: the universal formatter is stateless and deterministic: a
formatting call leaves the formatter object unchanged, two calls on the
same value produce the same text whatever formatter objects are used, and
the text produced for a value is independent of whatever other values were
formatted before it. -/
theorem fmtcompat_C8 (f g : UniversalFormatter) (vs ws : List CppValue)
    (v : CppValue) :
    (formatCall f v).1 = f ∧
    (formatCall f v).2 = (formatCall g v).2 ∧
    (runFormats f (vs ++ [v])).getLast? = (runFormats g (ws ++ [v])).getLast? := by
  refine ⟨rfl, rfl, ?_⟩
  have key : ∀ (h : UniversalFormatter) (us : List CppValue),
      (runFormats h (us ++ [v])).getLast? = some (ostreamFormatterFormat v) := by
    intro h us
    rw [runFormats_eq_map, List.map_append]
    simp
  rw [key f vs, key g ws]

/-- C9: the range-format suppression applies only in the narrow-character
context: for every derived-accessor type, the classification under a wide
character type coincides with the host library's default, while the
narrow-character classification is disabled. -/
theorem fmtcompat_C9 (T : CppType) (h : EigenDerived T = true) :
    rangeFormatKind T CharT.narrow = RangeFormat.disabled ∧
    rangeFormatKind T CharT.wide = hostRangeFormatKind T := by
  constructor
  · simp [rangeFormatKind, h]
  · rfl

/-- C9 witness: the stand-in matrix type is disabled under narrow
characters but keeps the host default (sequence) under wide characters. -/
theorem fmtcompat_C9_witness :
    EigenDerived matTy = true ∧
    rangeFormatKind matTy CharT.narrow = RangeFormat.disabled ∧
    rangeFormatKind matTy CharT.wide = hostRangeFormatKind matTy ∧
    rangeFormatKind matTy CharT.wide = RangeFormat.sequence :=
  ⟨rfl, (fmtcompat_C9 matTy rfl).1, (fmtcompat_C9 matTy rfl).2, rfl⟩

/-- C10: both rules read only const access: a type whose derived() and
stream insertion are well-formed on mutable references only (ill-formed on
const references) is matched by neither the matrix-like classification nor
the universal formatter rule. -/
theorem fmtcompat_C10 (T : CppType) (hmd : T.mutDerived = true)
    (hms : T.mutStreamInsert = true) (hd : T.constDerived = false)
    (hs : T.constStreamInsert = false) :
    EigenDerived T = false ∧ universalFormatterMatches T = false := by
  constructor
  · simpa [EigenDerived] using hd
  · simp [universalFormatterMatches, hs]

/-- C10 witness: the mutable-only class is matched by neither rule. -/
theorem fmtcompat_C10_witness :
    mutOnlyTy.mutDerived = true ∧ mutOnlyTy.mutStreamInsert = true ∧
    mutOnlyTy.constDerived = false ∧ mutOnlyTy.constStreamInsert = false ∧
    EigenDerived mutOnlyTy = false ∧
    universalFormatterMatches mutOnlyTy = false :=
  ⟨rfl, rfl, rfl, rfl, (fmtcompat_C10 mutOnlyTy rfl rfl rfl rfl).1,
    (fmtcompat_C10 mutOnlyTy rfl rfl rfl rfl).2⟩

end FmtCompat
